import Mathlib

/-
Shallow embedding of the ink voting dapp contract (src/lib.rs, module
ink_voting_dapp).  Storage mappings are modelled as association lists with
first-match lookup and in-place replacement, AccountId as Nat, byte-string
labels (Vec of u8) as List Nat, u32 and u128 arithmetic as Nat with explicit
wrap-around modulo 2 pow 32 and 2 pow 128.  Every public message takes the
caller as an explicit argument (the host env caller) and returns the pair of
its Result value and the post-call storage, mirroring a mut-self method that
may mutate storage before returning an error.  Calls to Option unwrap in the
source are modelled with getD at the type default; each such site is reached
only after a check guaranteeing the entry exists, matching the source.
-/

/-- AccountId from the ink environment, modelled as an opaque numeric id. -/
abbrev AccountId := Nat

/-- A byte-string label (Vec of u8 in the source). -/
abbrev Label := List Nat

/-- Error enum from src/lib.rs lines 89-100. -/
inductive Error where
  | InsufficientProposals
  | ElectionNotValid
  | VoterNotRegistred
  | VoterHasNotSoMuchWeight
  | VoterHasAlreadyVoted
  | InvalidProposal
  | OnlyOwner
  | ElectionClosed
  | RegistrationClosed
  | VoterAlreadyRegistered
deriving DecidableEq, Repr

/-- RegistrationState enum from src/lib.rs lines 103-106; Default is Closed. -/
inductive RegistrationState where
  | RegistrationOpen
  | RegistrationClosed
deriving DecidableEq, Repr

/-- ElectionState enum from src/lib.rs lines 114-117; Default is Closed. -/
inductive ElectionState where
  | ElectionOpen
  | ElectionClosed
deriving DecidableEq, Repr

/-- Election record tuple (owner, requires_registration, registration_state,
election_state), as stored in the elections mapping (src/lib.rs line 18). -/
abbrev ElectionInfo := AccountId × Bool × RegistrationState × ElectionState

/-- Default value of an election record (AccountId zero, false, both Closed),
used where the source calls unwrap_or_default. -/
def defaultElection : ElectionInfo :=
  (0, false, RegistrationState.RegistrationClosed, ElectionState.ElectionClosed)

/-- Association-list lookup, first match wins: models ink Mapping get. -/
def mget {α β : Type} [DecidableEq α] : List (α × β) → α → Option β
  | [], _ => none
  | (k, v) :: t, a => if k = a then some v else mget t a

/-- Association-list insert, replacing the first binding of the key in place
or appending a new binding: models ink Mapping insert. -/
def mput {α β : Type} [DecidableEq α] : List (α × β) → α → β → List (α × β)
  | [], a, b => [(a, b)]
  | (k, v) :: t, a, b => if k = a then (a, b) :: t else (k, v) :: mput t a b

/-- Wrapping u32 addition. -/
def add32 (a b : Nat) : Nat := (a + b) % 2 ^ 32

/-- Wrapping u128 addition. -/
def wadd (a b : Nat) : Nat := (a + b) % 2 ^ 128

/-- Wrapping u128 subtraction (agrees with exact subtraction whenever
b le a and a lt 2 pow 128). -/
def wsub (a b : Nat) : Nat := (a + 2 ^ 128 - b % 2 ^ 128) % 2 ^ 128

/-- Contract storage, src/lib.rs lines 17-27. -/
structure InkVotingDapp where
  elections : List (Nat × ElectionInfo)
  elections_list : List Label
  elections_ids : List (Label × Nat)
  vote_proposals : List ((Nat × Nat) × Nat)
  proposals_ids : List ((Nat × Label) × Nat)
  proposals_list : List (Nat × List Label)
  voters : List ((Nat × AccountId) × (Nat × Bool))
  election_nonce : Nat
  election_count : Nat
deriving DecidableEq, Repr

/-- Constructor: initialize_contract zero-allocates every field, then
new_init sets election_nonce to 1 and election_count to 0 (lines 126-134). -/
def initial_state : InkVotingDapp :=
  { elections := [], elections_list := [], elections_ids := [],
    vote_proposals := [], proposals_ids := [], proposals_list := [],
    voters := [], election_nonce := 1, election_count := 0 }

/-- subtract_weight, src/lib.rs lines 398-406. -/
def subtract_weight (s : InkVotingDapp) (election_id : Nat) (voter : AccountId)
    (weight : Nat) : InkVotingDapp :=
  let voter_weight := ((mget s.voters (election_id, voter)).getD (0, false)).1
  if wsub voter_weight weight = 0 then
    { s with voters := mput s.voters (election_id, voter) (0, true) }
  else
    { s with voters := mput s.voters (election_id, voter) (wsub voter_weight weight, false) }

/-- register_voter, src/lib.rs lines 407-409. -/
def register_voter (s : InkVotingDapp) (voter : AccountId) (election_id : Nat) :
    InkVotingDapp :=
  { s with voters := mput s.voters (election_id, voter) (1, false) }

/-- _election_name_exists, src/lib.rs lines 410-412. -/
def election_name_exists (s : InkVotingDapp) (name : Label) : Bool :=
  (mget s.elections_ids name).isSome

/-- _is_election_open, src/lib.rs lines 414-416. -/
def is_election_open (s : InkVotingDapp) (election_id : Nat) : Bool :=
  ((mget s.elections election_id).getD defaultElection).2.2.2 = ElectionState.ElectionOpen

/-- _is_registration_open, src/lib.rs lines 418-421. -/
def is_registration_open (s : InkVotingDapp) (election_id : Nat) : Bool :=
  ((mget s.elections election_id).getD defaultElection).2.2.1 = RegistrationState.RegistrationOpen

/-- delegate (internal), src/lib.rs lines 423-434: add weight to the delegate
record with consumed forced to false, then subtract it from the delegator. -/
def delegate (s : InkVotingDapp) (election_id : Nat) (delegate_to : AccountId)
    (delegator_address : AccountId) (weight : Nat) : InkVotingDapp :=
  let weight_delegate := ((mget s.voters (election_id, delegate_to)).getD (0, false)).1
  let s1 : InkVotingDapp :=
    { s with voters := mput s.voters (election_id, delegate_to) (wadd weight_delegate weight, false) }
  subtract_weight s1 election_id delegator_address weight

/-- is_owner, src/lib.rs lines 436-438. -/
def is_owner (s : InkVotingDapp) (account : AccountId) (election_id : Nat) : Bool :=
  account = ((mget s.elections election_id).getD defaultElection).1

/-- check_id_existence, src/lib.rs lines 439-445. -/
def check_id_existence (s : InkVotingDapp) (id : Nat) : Except Error Unit :=
  if !(mget s.elections id).isSome then .error .ElectionNotValid else .ok ()

/-- check_sufficient_proposals, src/lib.rs lines 449-455. -/
def check_sufficient_proposals (proposals : List Label) : Except Error Unit :=
  if proposals.length = 0 then .error .InsufficientProposals else .ok ()

/-- insert_proposal, src/lib.rs lines 456-461 (proposal ids are 1-based). -/
def insert_proposal (s : InkVotingDapp) (election_id : Nat) (proposal : Label)
    (proposal_id : Nat) : InkVotingDapp :=
  let s1 : InkVotingDapp :=
    { s with vote_proposals := mput s.vote_proposals (election_id, add32 proposal_id 1) 0 }
  { s1 with proposals_ids := mput s1.proposals_ids (election_id, proposal) (add32 proposal_id 1) }

/-- The indexed for-loop of insert_election (src/lib.rs lines 481-483),
inserting proposals.get(i) with index i for i in 0..len. -/
def insert_proposals_from (s : InkVotingDapp) (election_id : Nat) :
    List Label → Nat → InkVotingDapp
  | [], _ => s
  | p :: rest, i => insert_proposals_from (insert_proposal s election_id p i) election_id rest (i + 1)

/-- insert_election, src/lib.rs lines 462-485. -/
def insert_election (s : InkVotingDapp) (name : Label) (election_id : Nat)
    (owner : AccountId) (required_registration : Bool) (proposals : List Label) :
    InkVotingDapp :=
  let info : ElectionInfo :=
    (owner, required_registration, RegistrationState.RegistrationClosed,
     ElectionState.ElectionClosed)
  let s1 : InkVotingDapp := { s with elections := mput s.elections election_id info }
  let s2 : InkVotingDapp := { s1 with elections_ids := mput s1.elections_ids name election_id }
  let s3 : InkVotingDapp := { s2 with elections_list := s2.elections_list ++ [name] }
  let s4 : InkVotingDapp := insert_proposals_from s3 election_id proposals 0
  { s4 with proposals_list := mput s4.proposals_list election_id proposals }

/-- check_election_open, src/lib.rs lines 486-492. -/
def check_election_open (s : InkVotingDapp) (election_id : Nat) : Except Error Unit :=
  if !is_election_open s election_id then .error .ElectionClosed else .ok ()

/-- check_registration_open, src/lib.rs lines 493-499. -/
def check_registration_open (s : InkVotingDapp) (election_id : Nat) : Except Error Unit :=
  if !is_registration_open s election_id then .error .RegistrationClosed else .ok ()

/-- is_voter_registered, src/lib.rs lines 500-502. -/
def is_voter_registered (s : InkVotingDapp) (election_id : Nat)
    (voter_address : AccountId) : Bool :=
  (mget s.voters (election_id, voter_address)).isSome

/-- check_voter_registered, src/lib.rs lines 504-514. -/
def check_voter_registered (s : InkVotingDapp) (election_id : Nat)
    (voter_address : AccountId) : Except Error Unit :=
  if !is_voter_registered s election_id voter_address then .error .VoterNotRegistred else .ok ()

/-- check_proposal_valid, src/lib.rs lines 515-521. -/
def check_proposal_valid (s : InkVotingDapp) (election_id : Nat) (proposal : Label) :
    Except Error Unit :=
  if mget s.proposals_ids (election_id, proposal) = none then .error .InvalidProposal else .ok ()

/-- check_voter_can_vote, src/lib.rs lines 522-537: already-voted takes
precedence over insufficient weight; applied to one principal only. -/
def check_voter_can_vote (s : InkVotingDapp) (election_id : Nat)
    (voter_address : AccountId) (weight : Nat) : Except Error Unit :=
  let vb := (mget s.voters (election_id, voter_address)).getD (0, false)
  if vb.2 then .error .VoterHasAlreadyVoted
  else if vb.1 < weight then .error .VoterHasNotSoMuchWeight
  else .ok ()

/-- _vote (internal), src/lib.rs lines 538-550: add weight to the proposal
tally, then subtract it from the voter record. -/
def vote_inner (s : InkVotingDapp) (election_id : Nat) (proposal : Label)
    (voter_address : AccountId) (weight : Nat) : InkVotingDapp :=
  let proposal_id := (mget s.proposals_ids (election_id, proposal)).getD 0
  let vote_proposal := (mget s.vote_proposals (election_id, proposal_id)).getD 0
  let s1 : InkVotingDapp :=
    { s with vote_proposals := mput s.vote_proposals (election_id, proposal_id) (wadd vote_proposal weight) }
  subtract_weight s1 election_id voter_address weight

/-- only_owner, src/lib.rs lines 551-557. -/
def only_owner (s : InkVotingDapp) (election_id : Nat) (address : AccountId) :
    Except Error Unit :=
  if !is_owner s address election_id then .error .OnlyOwner else .ok ()

/-- check_if_registration_needed, src/lib.rs lines 558-571.  Note the lazy
path: for an election not requiring registration this check itself registers
an absent voter record, so it returns the possibly mutated storage. -/
def check_if_registration_needed (s : InkVotingDapp) (election_id : Nat)
    (voter_address : AccountId) : Except Error Unit × InkVotingDapp :=
  if ((mget s.elections election_id).getD defaultElection).2.1 then
    (check_voter_registered s election_id voter_address, s)
  else
    if !is_voter_registered s election_id voter_address then
      (.ok (), register_voter s voter_address election_id)
    else
      (.ok (), s)

/-- check_double_election, src/lib.rs lines 572-578. -/
def check_double_election (s : InkVotingDapp) (name : Label) : Except Error Unit :=
  if election_name_exists s name then .error .ElectionNotValid else .ok ()

/-- create_election message, src/lib.rs lines 136-162: double-creation check
first, then proposal-count check, then the inserts and counter bumps. -/
def create_election (s : InkVotingDapp) (caller : AccountId) (name : Label)
    (required_registration : Bool) (proposals : List Label) :
    Except Error Unit × InkVotingDapp :=
  match check_double_election s name with
  | .error e => (.error e, s)
  | .ok _ =>
    match check_sufficient_proposals proposals with
    | .error e => (.error e, s)
    | .ok _ =>
      let election_id := s.election_nonce
      let s1 := insert_election s name election_id caller required_registration proposals
      (.ok (), { s1 with election_nonce := add32 s1.election_nonce 1,
                         election_count := add32 s1.election_count 1 })

/-- vote message, src/lib.rs lines 163-178: existence, election-open,
registration-needed (mutating), eligibility, proposal-validity gates in that
order, then the tally update and weight subtraction. -/
def vote (s : InkVotingDapp) (caller : AccountId) (election_id : Nat)
    (proposal : Label) (weight : Nat) : Except Error Unit × InkVotingDapp :=
  match check_id_existence s election_id with
  | .error e => (.error e, s)
  | .ok _ =>
    match check_election_open s election_id with
    | .error e => (.error e, s)
    | .ok _ =>
      match check_if_registration_needed s election_id caller with
      | (.error e, s1) => (.error e, s1)
      | (.ok _, s1) =>
        match check_voter_can_vote s1 election_id caller weight with
        | .error e => (.error e, s1)
        | .ok _ =>
          match check_proposal_valid s1 election_id proposal with
          | .error e => (.error e, s1)
          | .ok _ => (.ok (), vote_inner s1 election_id proposal caller weight)

/-- register message, src/lib.rs lines 186-199 (the caller plays no role). -/
def register (s : InkVotingDapp) (election_id : Nat) (voter : AccountId) :
    Except Error Unit × InkVotingDapp :=
  match check_id_existence s election_id with
  | .error e => (.error e, s)
  | .ok _ =>
    match check_registration_open s election_id with
    | .error e => (.error e, s)
    | .ok _ =>
      if is_voter_registered s election_id voter then (.error .VoterAlreadyRegistered, s)
      else (.ok (), register_voter s voter election_id)

/-- register_me message, src/lib.rs lines 180-184: register with the caller
as the voter. -/
def register_me (s : InkVotingDapp) (caller : AccountId) (election_id : Nat) :
    Except Error Unit × InkVotingDapp :=
  register s election_id caller

/-- delegate_vote message, src/lib.rs lines 201-220: existence gate, both
registration-needed gates (each possibly lazily registering), the delegator
eligibility gate, then the transfer.  There is no election-open gate and no
eligibility gate on the delegate. -/
def delegate_vote (s : InkVotingDapp) (caller : AccountId) (election_id : Nat)
    (delegate_to : AccountId) (weight : Nat) : Except Error Unit × InkVotingDapp :=
  match check_id_existence s election_id with
  | .error e => (.error e, s)
  | .ok _ =>
    match check_if_registration_needed s election_id caller with
    | (.error e, s1) => (.error e, s1)
    | (.ok _, s1) =>
      match check_if_registration_needed s1 election_id delegate_to with
      | (.error e, s2) => (.error e, s2)
      | (.ok _, s2) =>
        match check_voter_can_vote s2 election_id caller weight with
        | .error e => (.error e, s2)
        | .ok _ => (.ok (), delegate s2 election_id delegate_to caller weight)

/-- open_registration message, src/lib.rs lines 222-234. -/
def open_registration (s : InkVotingDapp) (caller : AccountId) (election_id : Nat) :
    Except Error Unit × InkVotingDapp :=
  match check_id_existence s election_id with
  | .error e => (.error e, s)
  | .ok _ =>
    match only_owner s election_id caller with
    | .error e => (.error e, s)
    | .ok _ =>
      let e := (mget s.elections election_id).getD defaultElection
      let e1 : ElectionInfo := (e.1, e.2.1, RegistrationState.RegistrationOpen, e.2.2.2)
      (.ok (), { s with elections := mput s.elections election_id e1 })

/-- close_registration message, src/lib.rs lines 236-248. -/
def close_registration (s : InkVotingDapp) (caller : AccountId) (election_id : Nat) :
    Except Error Unit × InkVotingDapp :=
  match check_id_existence s election_id with
  | .error e => (.error e, s)
  | .ok _ =>
    match only_owner s election_id caller with
    | .error e => (.error e, s)
    | .ok _ =>
      let e := (mget s.elections election_id).getD defaultElection
      let e1 : ElectionInfo := (e.1, e.2.1, RegistrationState.RegistrationClosed, e.2.2.2)
      (.ok (), { s with elections := mput s.elections election_id e1 })

/-- open_election message, src/lib.rs lines 250-262. -/
def open_election (s : InkVotingDapp) (caller : AccountId) (election_id : Nat) :
    Except Error Unit × InkVotingDapp :=
  match check_id_existence s election_id with
  | .error e => (.error e, s)
  | .ok _ =>
    match only_owner s election_id caller with
    | .error e => (.error e, s)
    | .ok _ =>
      let e := (mget s.elections election_id).getD defaultElection
      let e1 : ElectionInfo := (e.1, e.2.1, e.2.2.1, ElectionState.ElectionOpen)
      (.ok (), { s with elections := mput s.elections election_id e1 })

/-- close_election message, src/lib.rs lines 264-276. -/
def close_election (s : InkVotingDapp) (caller : AccountId) (election_id : Nat) :
    Except Error Unit × InkVotingDapp :=
  match check_id_existence s election_id with
  | .error e => (.error e, s)
  | .ok _ =>
    match only_owner s election_id caller with
    | .error e => (.error e, s)
    | .ok _ =>
      let e := (mget s.elections election_id).getD defaultElection
      let e1 : ElectionInfo := (e.1, e.2.1, e.2.2.1, ElectionState.ElectionClosed)
      (.ok (), { s with elections := mput s.elections election_id e1 })

/-- change_ownership message, src/lib.rs lines 278-290. -/
def change_ownership (s : InkVotingDapp) (caller : AccountId) (election_id : Nat)
    (new_owner : AccountId) : Except Error Unit × InkVotingDapp :=
  match check_id_existence s election_id with
  | .error e => (.error e, s)
  | .ok _ =>
    match only_owner s election_id caller with
    | .error e => (.error e, s)
    | .ok _ =>
      let e := (mget s.elections election_id).getD defaultElection
      let e1 : ElectionInfo := (new_owner, e.2.1, e.2.2.1, e.2.2.2)
      (.ok (), { s with elections := mput s.elections election_id e1 })

/-- get_votes_proposal message, src/lib.rs lines 351-360. -/
def get_votes_proposal (s : InkVotingDapp) (election_id : Nat) (proposal : Label) : Nat :=
  let proposal_id := (mget s.proposals_ids (election_id, proposal)).getD 0
  (mget s.vote_proposals (election_id, proposal_id)).getD 0

/-- The loop body of get_winner, src/lib.rs lines 368-384: winner and
max_votes are updated only when the tally is strictly greater. -/
def get_winner_loop (s : InkVotingDapp) (election_id : Nat) :
    List Label → Label → Nat → Label × Nat
  | [], winner, max_votes => (winner, max_votes)
  | proposal :: rest, winner, max_votes =>
    let proposal_id := (mget s.proposals_ids (election_id, proposal)).getD 0
    let vote_proposal := (mget s.vote_proposals (election_id, proposal_id)).getD 0
    if vote_proposal > max_votes then
      get_winner_loop s election_id rest proposal
        ((mget s.vote_proposals (election_id, proposal_id)).getD 0)
    else
      get_winner_loop s election_id rest winner max_votes

/-- get_winner message, src/lib.rs lines 362-386. -/
def get_winner (s : InkVotingDapp) (election_id : Nat) : Label × Nat :=
  get_winner_loop s election_id ((mget s.proposals_list election_id).getD []) [] 0

/-- Runs a sequence of delegate_vote calls (caller, delegate, weight) on one
election, keeping the post-call storage whether each call succeeds or fails. -/
def run_delegations (election_id : Nat) :
    InkVotingDapp → List (AccountId × AccountId × Nat) → InkVotingDapp
  | s, [] => s
  | s, (c, d, w) :: rest =>
    run_delegations election_id (delegate_vote s c election_id d w).2 rest

/-- Runs a sequence of create_election calls (caller, name, requires
registration, proposals), keeping the post-call storage each time. -/
def run_creates : InkVotingDapp → List (AccountId × Label × Bool × List Label) → InkVotingDapp
  | s, [] => s
  | s, (c, nm, rr, pr) :: rest => run_creates (create_election s c nm rr pr).2 rest

/-- Modelled from the spec: the winner scan walks the proposals in creation
order and keeps the first proposal whose tally is strictly greater than the
running maximum, so ties keep the earlier proposal. -/
def winner_scan (tally : Label → Nat) : List Label → Label × Nat → Label × Nat
  | [], acc => acc
  | p :: rest, acc =>
    if tally p > acc.2 then winner_scan tally rest (p, tally p)
    else winner_scan tally rest acc

/-- Total remaining weight over all voter records of one election. -/
def sum_weights (election_id : Nat) : List ((Nat × AccountId) × (Nat × Bool)) → Nat
  | [] => 0
  | (k, v) :: t => (if k.1 = election_id then v.1 else 0) + sum_weights election_id t

/-- Storage t differs from storage s at most by lazily created voter records:
every non-voter component is unchanged and every voter key either keeps its
old binding or was absent and is now bound to weight 1, not consumed. -/
def LazyOnly (s t : InkVotingDapp) : Prop :=
  t.elections = s.elections ∧ t.elections_list = s.elections_list ∧
  t.elections_ids = s.elections_ids ∧ t.vote_proposals = s.vote_proposals ∧
  t.proposals_ids = s.proposals_ids ∧ t.proposals_list = s.proposals_list ∧
  t.election_nonce = s.election_nonce ∧ t.election_count = s.election_count ∧
  ∀ k, mget t.voters k = mget s.voters k ∨
       (mget s.voters k = none ∧ mget t.voters k = some (1, false))

theorem mget_mput_self {α β : Type} [DecidableEq α] (m : List (α × β)) (k : α) (v : β) :
    mget (mput m k v) k = some v := by
  induction m with
  | nil => simp [mput, mget]
  | cons h t ih =>
    obtain ⟨a, b⟩ := h
    by_cases hk : a = k
    · simp [mput, hk, mget]
    · simp [mput, hk, mget, ih]

theorem mget_mput_ne {α β : Type} [DecidableEq α] (m : List (α × β)) (k1 k2 : α) (v : β)
    (h : k1 ≠ k2) : mget (mput m k1 v) k2 = mget m k2 := by
  induction m with
  | nil => simp [mput, mget, h]
  | cons hd t ih =>
    obtain ⟨a, b⟩ := hd
    by_cases hk : a = k1
    · subst hk; simp [mput, mget, h]
    · simp [mput, hk, mget, ih]

theorem mget_isSome_mput {α β : Type} [DecidableEq α] (m : List (α × β)) (k1 k2 : α) (v : β)
    (h : (mget m k2).isSome = true) : (mget (mput m k1 v) k2).isSome = true := by
  by_cases hk : k1 = k2
  · subst hk; simp [mget_mput_self]
  · rw [mget_mput_ne m k1 k2 v hk]; exact h

theorem sum_weights_mput_some (eid : Nat) (m : List ((Nat × AccountId) × (Nat × Bool)))
    (k : Nat × AccountId) (v w : Nat × Bool) (h : mget m k = some v) :
    sum_weights eid (mput m k w) + (if k.1 = eid then v.1 else 0) =
      sum_weights eid m + (if k.1 = eid then w.1 else 0) := by
  induction m with
  | nil => simp [mget] at h
  | cons hd t ih =>
    obtain ⟨a, b⟩ := hd
    by_cases hk : a = k
    · subst hk
      simp [mget] at h
      subst h
      simp [mput, sum_weights]
      omega
    · simp [mget, hk] at h
      have := ih h
      simp [mput, hk, sum_weights]
      omega

theorem sum_weights_mput_none (eid : Nat) (m : List ((Nat × AccountId) × (Nat × Bool)))
    (k : Nat × AccountId) (w : Nat × Bool) (h : mget m k = none) :
    sum_weights eid (mput m k w) = sum_weights eid m + (if k.1 = eid then w.1 else 0) := by
  induction m with
  | nil => simp [mput, sum_weights]
  | cons hd t ih =>
    obtain ⟨a, b⟩ := hd
    by_cases hk : a = k
    · simp [mget, hk] at h
    · simp [mget, hk] at h
      have := ih h
      simp [mput, hk, sum_weights]
      omega

theorem weight_le_sum (eid : Nat) (m : List ((Nat × AccountId) × (Nat × Bool)))
    (k : Nat × AccountId) (v : Nat × Bool) (h : mget m k = some v) (hk : k.1 = eid) :
    v.1 ≤ sum_weights eid m := by
  induction m with
  | nil => simp [mget] at h
  | cons hd t ih =>
    obtain ⟨a, b⟩ := hd
    by_cases ha : a = k
    · subst ha
      simp [mget] at h
      subst h
      simp [sum_weights, hk]
    · simp [mget, ha] at h
      have := ih h
      simp [sum_weights]
      omega

theorem weights_two_le_sum (eid : Nat) (m : List ((Nat × AccountId) × (Nat × Bool)))
    (k1 k2 : Nat × AccountId) (v1 v2 : Nat × Bool) (hne : k1 ≠ k2)
    (h1 : mget m k1 = some v1) (h2 : mget m k2 = some v2)
    (hk1 : k1.1 = eid) (hk2 : k2.1 = eid) :
    v1.1 + v2.1 ≤ sum_weights eid m := by
  induction m with
  | nil => simp [mget] at h1
  | cons hd t ih =>
    obtain ⟨a, b⟩ := hd
    by_cases ha1 : a = k1
    · subst ha1
      simp [mget] at h1
      subst h1
      simp [mget, hne] at h2
      have := weight_le_sum eid t k2 v2 h2 hk2
      simp [sum_weights, hk1]
      omega
    · by_cases ha2 : a = k2
      · subst ha2
        simp [mget] at h2
        subst h2
        simp [mget, ha1] at h1
        have := weight_le_sum eid t k1 v1 h1 hk1
        simp [sum_weights, hk2]
        omega
      · simp [mget, ha1] at h1
        simp [mget, ha2] at h2
        have := ih h1 h2
        simp [sum_weights]
        omega

theorem lazy_refl (s : InkVotingDapp) : LazyOnly s s :=
  ⟨rfl, rfl, rfl, rfl, rfl, rfl, rfl, rfl, fun _ => Or.inl rfl⟩

theorem lazy_trans {s t u : InkVotingDapp} (h1 : LazyOnly s t) (h2 : LazyOnly t u) :
    LazyOnly s u := by
  obtain ⟨a1, b1, c1, d1, e1, f1, g1, n1, v1⟩ := h1
  obtain ⟨a2, b2, c2, d2, e2, f2, g2, n2, v2⟩ := h2
  refine ⟨a2.trans a1, b2.trans b1, c2.trans c1, d2.trans d1, e2.trans e1,
    f2.trans f1, g2.trans g1, n2.trans n1, ?_⟩
  intro k
  rcases v2 k with hk2 | ⟨hk2n, hk2s⟩
  · rcases v1 k with hk1 | ⟨hk1n, hk1s⟩
    · exact Or.inl (hk2.trans hk1)
    · exact Or.inr ⟨hk1n, hk2.trans hk1s⟩
  · rcases v1 k with hk1 | ⟨hk1n, hk1s⟩
    · refine Or.inr ⟨?_, hk2s⟩
      rw [← hk1]
      exact hk2n
    · rw [hk1s] at hk2n
      cases hk2n

theorem lazy_register (s : InkVotingDapp) (eid : Nat) (v : AccountId)
    (h : mget s.voters (eid, v) = none) : LazyOnly s (register_voter s v eid) := by
  refine ⟨rfl, rfl, rfl, rfl, rfl, rfl, rfl, rfl, ?_⟩
  intro k
  by_cases hk : (eid, v) = k
  · subst hk
    exact Or.inr ⟨h, by simp [register_voter, mget_mput_self]⟩
  · exact Or.inl (by simp [register_voter, mget_mput_ne _ _ _ _ hk])

theorem reg_lazy (s : InkVotingDapp) (eid : Nat) (v : AccountId) :
    LazyOnly s (check_if_registration_needed s eid v).2 := by
  unfold check_if_registration_needed
  by_cases hreq : ((mget s.elections eid).getD defaultElection).2.1
  · simpa [hreq] using lazy_refl s
  · by_cases hr : is_voter_registered s eid v
    · simpa [hreq, hr] using lazy_refl s
    · have hnone : mget s.voters (eid, v) = none := by
        unfold is_voter_registered at hr
        simpa using hr
      simpa [hreq, hr] using lazy_register s eid v hnone

theorem check_if_registration_needed_registered (s : InkVotingDapp) (eid : Nat)
    (v : AccountId) (r : Nat × Bool) (h : mget s.voters (eid, v) = some r) :
    check_if_registration_needed s eid v = (.ok (), s) := by
  have hreg : is_voter_registered s eid v = true := by simp [is_voter_registered, h]
  unfold check_if_registration_needed
  by_cases hreq : ((mget s.elections eid).getD defaultElection).2.1
  · simp [hreq, check_voter_registered, hreg]
  · simp [hreq, hreg]

theorem check_if_registration_needed_err (s : InkVotingDapp) (eid : Nat) (v : AccountId)
    (e : Error) (h : (check_if_registration_needed s eid v).1 = .error e) :
    e = .VoterNotRegistred ∧ (check_if_registration_needed s eid v).2 = s := by
  by_cases hreq : ((mget s.elections eid).getD defaultElection).2.1
  · refine ⟨?_, by simp [check_if_registration_needed, hreq]⟩
    simp [check_if_registration_needed, hreq] at h
    unfold check_voter_registered at h
    by_cases hr : is_voter_registered s eid v
    · simp [hr] at h
    · simp [hr] at h
      exact h.symm
  · by_cases hr : is_voter_registered s eid v
    · simp [check_if_registration_needed, hreq, hr] at h
    · simp [check_if_registration_needed, hreq, hr] at h

theorem check_id_existence_err (s : InkVotingDapp) (id : Nat) (e : Error)
    (h : check_id_existence s id = .error e) :
    e = .ElectionNotValid ∧ mget s.elections id = none := by
  cases hm : mget s.elections id with
  | none =>
    simp [check_id_existence, hm] at h
    exact ⟨h.symm, rfl⟩
  | some x => simp [check_id_existence, hm] at h

theorem check_election_open_err (s : InkVotingDapp) (id : Nat) (e : Error)
    (h : check_election_open s id = .error e) : e = .ElectionClosed := by
  by_cases ho : is_election_open s id
  · simp [check_election_open, ho] at h
  · simp [check_election_open, ho] at h
    exact h.symm

theorem check_registration_open_err (s : InkVotingDapp) (id : Nat) (e : Error)
    (h : check_registration_open s id = .error e) : e = .RegistrationClosed := by
  by_cases ho : is_registration_open s id
  · simp [check_registration_open, ho] at h
  · simp [check_registration_open, ho] at h
    exact h.symm

theorem check_voter_can_vote_err (s : InkVotingDapp) (eid : Nat) (v : AccountId)
    (w : Nat) (e : Error) (h : check_voter_can_vote s eid v w = .error e) :
    e = .VoterHasAlreadyVoted ∨ e = .VoterHasNotSoMuchWeight := by
  by_cases h1 : ((mget s.voters (eid, v)).getD (0, false)).2
  · simp [check_voter_can_vote, h1] at h
    exact Or.inl h.symm
  · by_cases h2 : ((mget s.voters (eid, v)).getD (0, false)).1 < w
    · simp [check_voter_can_vote, h1, h2] at h
      exact Or.inr h.symm
    · simp [check_voter_can_vote, h1, h2] at h

theorem check_voter_can_vote_ok (s : InkVotingDapp) (eid : Nat) (v : AccountId)
    (w : Nat) (h : check_voter_can_vote s eid v w = .ok ()) :
    ((mget s.voters (eid, v)).getD (0, false)).2 = false ∧
    w ≤ ((mget s.voters (eid, v)).getD (0, false)).1 := by
  by_cases h1 : ((mget s.voters (eid, v)).getD (0, false)).2
  · simp [check_voter_can_vote, h1] at h
  · by_cases h2 : ((mget s.voters (eid, v)).getD (0, false)).1 < w
    · simp [check_voter_can_vote, h1, h2] at h
    · exact ⟨by simp [h1], by omega⟩

theorem only_owner_err (s : InkVotingDapp) (id : Nat) (a : AccountId) (e : Error)
    (h : only_owner s id a = .error e) : e = .OnlyOwner := by
  by_cases ho : is_owner s a id
  · simp [only_owner, ho] at h
  · simp [only_owner, ho] at h
    exact h.symm

/-- A concrete storage with one election (id 1, owner 0, no registration
requirement, proposals 80 and 81, both lifecycle flags closed), produced by
running create_election on the initial storage. -/
def exBase : InkVotingDapp := (create_election initial_state 0 [101] false [[80], [81]]).2

/-- exBase with election 1 opened by its owner. -/
def exOpen : InkVotingDapp := (open_election exBase 0 1).2

/-- exOpen after voter 1 has spent its single lazily granted weight unit, so
its record for election 1 is (0, consumed). -/
def c2Consumed : InkVotingDapp := (vote exOpen 1 1 [80] 1).2

/-- Claim C4: for every state, any vote call naming an election id that is
absent from the elections mapping returns ElectionNotValid, whatever the
proposal label and weight arguments are. -/
theorem C4_vote_unknown_election (s : InkVotingDapp) (caller : AccountId)
    (election_id : Nat) (proposal : Label) (weight : Nat)
    (h : mget s.elections election_id = none) :
    (vote s caller election_id proposal weight).1 = .error .ElectionNotValid := by
  simp [vote, check_id_existence, h]

/-- Witness for C4 at a concrete state: election 5 does not exist in the
initial storage. -/
theorem C4_witness :
    (vote initial_state 3 5 [1] 2).1 = .error .ElectionNotValid :=
  C4_vote_unknown_election initial_state 3 5 [1] 2 rfl

theorem get_winner_loop_eq_scan (s : InkVotingDapp) (eid : Nat) (ps : List Label)
    (w : Label) (m : Nat) :
    get_winner_loop s eid ps w m = winner_scan (get_votes_proposal s eid) ps (w, m) := by
  induction ps generalizing w m with
  | nil => rfl
  | cons p rest ih =>
    by_cases hgt :
        (mget s.vote_proposals (eid, (mget s.proposals_ids (eid, p)).getD 0)).getD 0 > m
    · simp [get_winner_loop, winner_scan, get_votes_proposal, hgt, ih]
    · simp [get_winner_loop, winner_scan, get_votes_proposal, hgt, ih]

theorem winner_scan_zero (tally : Label → Nat) (ps : List Label) (w : Label)
    (h : ∀ p ∈ ps, tally p = 0) : winner_scan tally ps (w, 0) = (w, 0) := by
  induction ps with
  | nil => rfl
  | cons p rest ih =>
    have hp := h p (by simp)
    simp [winner_scan, hp]
    exact ih (fun q hq => h q (by simp [hq]))

/-- Claim C5: get_winner scans the election's proposals in creation order
keeping the first proposal whose tally is strictly greater than the running
maximum (the winner_scan behaviour, so ties keep the earlier proposal), and
it returns the empty label with tally 0 when the election is unknown, when
it has no proposals, and when all tallies are 0. -/
theorem C5_get_winner (s : InkVotingDapp) (election_id : Nat) :
    get_winner s election_id =
      winner_scan (get_votes_proposal s election_id)
        ((mget s.proposals_list election_id).getD []) ([], 0) ∧
    (mget s.proposals_list election_id = none → get_winner s election_id = ([], 0)) ∧
    (mget s.proposals_list election_id = some [] → get_winner s election_id = ([], 0)) ∧
    ((∀ p ∈ (mget s.proposals_list election_id).getD [],
        get_votes_proposal s election_id p = 0) → get_winner s election_id = ([], 0)) := by
  refine ⟨get_winner_loop_eq_scan s election_id _ [] 0, ?_, ?_, ?_⟩
  · intro h
    simp [get_winner, h, get_winner_loop]
  · intro h
    simp [get_winner, h, get_winner_loop]
  · intro h
    rw [get_winner, get_winner_loop_eq_scan]
    exact winner_scan_zero _ _ [] h

/-- Witness for C5: the all-zero freshly created election reports the empty
winner, and the scan refinement holds at the concrete opened election. -/
theorem C5_witness :
    get_winner exBase 1 = ([], 0) ∧
    get_winner exOpen 1 =
      winner_scan (get_votes_proposal exOpen 1)
        ((mget exOpen.proposals_list 1).getD []) ([], 0) :=
  ⟨(C5_get_winner exBase 1).2.2.2 (by decide), (C5_get_winner exOpen 1).1⟩

/-- Claim C6 counterexample: with name 101 already mapping to election 1,
create_election with an empty proposal list fails with ElectionNotValid and
not with InsufficientProposals, because the double-creation check runs before
the proposal-count check. -/
theorem C6_counterexample :
    (create_election exBase 0 [101] false []).1 = .error .ElectionNotValid ∧
    Error.ElectionNotValid ≠ Error.InsufficientProposals :=
  ⟨rfl, by decide⟩

/-- Claim C6 (amended): a create_election call with an empty proposal list
fails with InsufficientProposals whenever the name is not already taken;
when the name is already taken the double-creation check fires first and the
call fails with ElectionNotValid instead.  Either way the storage is
unchanged. -/
theorem C6_empty_proposals (s : InkVotingDapp) (caller : AccountId) (name : Label)
    (rr : Bool) :
    (mget s.elections_ids name = none →
      create_election s caller name rr [] = (.error .InsufficientProposals, s)) ∧
    ((mget s.elections_ids name).isSome = true →
      create_election s caller name rr [] = (.error .ElectionNotValid, s)) := by
  constructor
  · intro h
    simp [create_election, check_double_election, election_name_exists, h,
      check_sufficient_proposals]
  · intro h
    simp [create_election, check_double_election, election_name_exists, h]

/-- Witness for C6 at the initial storage, where no name is taken. -/
theorem C6_witness :
    create_election initial_state 4 [102] true [] =
      (.error .InsufficientProposals, initial_state) :=
  (C6_empty_proposals initial_state 4 [102] true).1 rfl

theorem wsub_wadd_cancel (W w : Nat) (hW : W < 2 ^ 128) (hw : w ≤ W) :
    wsub (wadd W w) w = W := by
  have hwlt : w < 2 ^ 128 := lt_of_le_of_lt hw hW
  unfold wadd wsub
  rw [Nat.mod_eq_of_lt hwlt]
  have h1 : (W + w) % 2 ^ 128 + 2 ^ 128 - w = (W + w) % 2 ^ 128 + (2 ^ 128 - w) := by
    omega
  rw [h1, Nat.mod_add_mod]
  have h2 : W + w + (2 ^ 128 - w) = W + 2 ^ 128 := by omega
  rw [h2, Nat.add_mod_right, Nat.mod_eq_of_lt hW]

theorem wsub_exact (a b : Nat) (ha : a < 2 ^ 128) (hb : b ≤ a) : wsub a b = a - b := by
  unfold wsub
  rw [Nat.mod_eq_of_lt (lt_of_le_of_lt hb ha)]
  have h1 : a + 2 ^ 128 - b = (a - b) + 2 ^ 128 := by omega
  rw [h1, Nat.add_mod_right, Nat.mod_eq_of_lt (by omega)]

/-- Claim C2 counterexample: in c2Consumed the record of voter 1 for
election 1 is consumed, yet an incoming delegation from caller 2 to voter 1
succeeds (instead of being rejected), resets the record to (1, not
consumed), and voter 1 then votes again successfully — contradicting both
the claimed rejection of incoming delegation to a consumed voter and the
claimed failure of every subsequent vote by that principal. -/
theorem C2_counterexample :
    mget c2Consumed.voters (1, 1) = some (0, true) ∧
    (delegate_vote c2Consumed 2 1 1 1).1 = .ok () ∧
    mget (delegate_vote c2Consumed 2 1 1 1).2.voters (1, 1) = some (1, false) ∧
    (vote (delegate_vote c2Consumed 2 1 1 1).2 1 1 [80] 1).1 = .ok () :=
  ⟨rfl, rfl, rfl, rfl⟩

/-- Claim C2 (amended): while a principal's voter record for an existing
election has consumed true, a vote call by that principal fails with
VoterHasAlreadyVoted provided the election is open, and an outgoing
delegate_vote by that principal fails with VoterHasAlreadyVoted provided the
delegate passes the registration gate; this holds only until an incoming
delegation arrives, since delegating to a consumed voter is accepted and
resets consumed to false, re-enabling spending. -/
theorem C2_amended (s : InkVotingDapp) (p : AccountId) (eid : Nat) (d : AccountId)
    (lbl : Label) (wt w : Nat) (e : ElectionInfo)
    (he : mget s.elections eid = some e)
    (hv : mget s.voters (eid, p) = some (w, true)) :
    (e.2.2.2 = ElectionState.ElectionOpen →
      (vote s p eid lbl wt).1 = .error .VoterHasAlreadyVoted) ∧
    ((e.2.1 = true → is_voter_registered s eid d = true) →
      (delegate_vote s p eid d wt).1 = .error .VoterHasAlreadyVoted) := by
  have hreg := check_if_registration_needed_registered s eid p (w, true) hv
  constructor
  · intro hopen
    simp [vote, check_id_existence, he, check_election_open, is_election_open, hopen,
      hreg, check_voter_can_vote, hv]
  · intro hd
    by_cases hrd : is_voter_registered s eid d
    · obtain ⟨r, hr⟩ := Option.isSome_iff_exists.mp
        (by simpa [is_voter_registered] using hrd)
      have hregd := check_if_registration_needed_registered s eid d r hr
      simp [delegate_vote, check_id_existence, he, hreg, hregd,
        check_voter_can_vote, hv]
    · by_cases hreq : e.2.1
      · exact absurd (hd hreq) hrd
      · have hdp : (eid, d) ≠ (eid, p) := by
          intro hdp
          apply hrd
          have : d = p := by
            have := congrArg Prod.snd hdp
            simpa using this
          subst this
          simp [is_voter_registered, hv]
        have hregd : check_if_registration_needed s eid d =
            (.ok (), register_voter s d eid) := by
          simp [check_if_registration_needed, he, hreq, hrd]
        have hv2 : mget (register_voter s d eid).voters (eid, p) = some (w, true) := by
          simpa [register_voter, mget_mput_ne _ _ _ _ hdp] using hv
        simp [delegate_vote, check_id_existence, he, hreg, hregd,
          check_voter_can_vote, hv2]

/-- Witness for C2 (amended) at the concrete consumed state c2Consumed. -/
theorem C2_witness :
    (vote c2Consumed 1 1 [80] 5).1 = .error .VoterHasAlreadyVoted ∧
    (delegate_vote c2Consumed 1 1 9 5).1 = .error .VoterHasAlreadyVoted := by
  have h := C2_amended c2Consumed 1 1 9 [80] 5 0
    (0, false, RegistrationState.RegistrationClosed, ElectionState.ElectionOpen) rfl rfl
  exact ⟨h.1 rfl, h.2 (fun hh => by cases hh)⟩

/-- A concrete opened election where voter 5 holds weight 3, not consumed. -/
def c10State : InkVotingDapp := { exOpen with voters := [((1, 5), (3, false))] }

/-- Claim C10: self-delegation is a weight no-op that never consumes the
caller: for an existing election and a caller whose record is (W, not
consumed) with 0 lt W and any amount w le W, delegating w to oneself
succeeds and leaves the record exactly (W, not consumed), because the weight
is added to the record before being subtracted from it. -/
theorem C10_self_delegation (s : InkVotingDapp) (c : AccountId) (eid : Nat)
    (w W : Nat) (e : ElectionInfo)
    (he : mget s.elections eid = some e)
    (hv : mget s.voters (eid, c) = some (W, false))
    (hpos : 0 < W) (hlt : W < 2 ^ 128) (hw : w ≤ W) :
    (delegate_vote s c eid c w).1 = .ok () ∧
    mget (delegate_vote s c eid c w).2.voters (eid, c) = some (W, false) := by
  have hreg := check_if_registration_needed_registered s eid c (W, false) hv
  have hcv : check_voter_can_vote s eid c w = .ok () := by
    simp [check_voter_can_vote, hv, Nat.not_lt.mpr hw]
  have hres : delegate_vote s c eid c w = (.ok (), delegate s eid c c w) := by
    simp [delegate_vote, check_id_existence, he, hreg, hcv]
  rw [hres]
  refine ⟨rfl, ?_⟩
  have hs1 : mget (mput s.voters (eid, c) (wadd W w, false)) (eid, c) =
      some (wadd W w, false) := mget_mput_self _ _ _
  have hWne : ¬(W = 0) := by omega
  simp [delegate, subtract_weight, hv, hs1, wsub_wadd_cancel W w hlt hw, hWne,
    mget_mput_self]

/-- Witness for C10 at the concrete state c10State. -/
theorem C10_witness :
    (delegate_vote c10State 5 1 5 2).1 = .ok () ∧
    mget (delegate_vote c10State 5 1 5 2).2.voters (1, 5) = some (3, false) :=
  C10_self_delegation c10State 5 1 2 3
    (0, false, RegistrationState.RegistrationClosed, ElectionState.ElectionOpen)
    rfl rfl (by decide) (by decide) (by decide)

/-- A concrete closed election (exBase) with two registered voters 5 and 6. -/
def c8State : InkVotingDapp :=
  { exBase with voters := [((1, 5), (1, false)), ((1, 6), (1, false))] }

/-- Claim C8: delegate_vote applies no election-open lifecycle gate.  On an
existing election whose state is Closed, a delegate_vote call succeeds
whenever the registration-needed gates for caller and delegate and the
caller eligibility gate pass (in execution order), and delegate_vote never
returns ElectionClosed in any state. -/
theorem C8_no_open_gate_on_delegation :
    (∀ (s : InkVotingDapp) (c : AccountId) (eid : Nat) (d : AccountId) (w : Nat)
       (e : ElectionInfo),
       mget s.elections eid = some e →
       e.2.2.2 = ElectionState.ElectionClosed →
       (check_if_registration_needed s eid c).1 = .ok () →
       (check_if_registration_needed (check_if_registration_needed s eid c).2 eid d).1 =
         .ok () →
       check_voter_can_vote
         (check_if_registration_needed (check_if_registration_needed s eid c).2 eid d).2
         eid c w = .ok () →
       (delegate_vote s c eid d w).1 = .ok ()) ∧
    (∀ (s : InkVotingDapp) (c : AccountId) (eid : Nat) (d : AccountId) (w : Nat),
       (delegate_vote s c eid d w).1 ≠ .error .ElectionClosed) := by
  constructor
  · intro s c eid d w e he _ h1 h2 h3
    cases hr1 : check_if_registration_needed s eid c with
    | mk r1 s1 =>
      rw [hr1] at h1 h2 h3
      simp only at h1 h2 h3
      subst h1
      cases hr2 : check_if_registration_needed s1 eid d with
      | mk r2 s2 =>
        rw [hr2] at h2 h3
        simp only at h2 h3
        subst h2
        simp [delegate_vote, check_id_existence, he, hr1, hr2, h3]
  · intro s c eid d w hcontra
    cases h1 : check_id_existence s eid with
    | error e1 =>
      simp [delegate_vote, h1] at hcontra
      have h2 := (check_id_existence_err s eid e1 h1).1
      rw [hcontra] at h2
      simp at h2
    | ok u =>
      cases u
      cases hr1 : check_if_registration_needed s eid c with
      | mk r1 s1 =>
        cases r1 with
        | error e1 =>
          simp [delegate_vote, h1, hr1] at hcontra
          have h2 := (check_if_registration_needed_err s eid c e1 (by rw [hr1])).1
          rw [hcontra] at h2
          simp at h2
        | ok u1 =>
          cases u1
          cases hr2 : check_if_registration_needed s1 eid d with
          | mk r2 s2 =>
            cases r2 with
            | error e2 =>
              simp [delegate_vote, h1, hr1, hr2] at hcontra
              have h2 := (check_if_registration_needed_err s1 eid d e2 (by rw [hr2])).1
              rw [hcontra] at h2
              simp at h2
            | ok u2 =>
              cases u2
              cases h4 : check_voter_can_vote s2 eid c w with
              | error e4 =>
                simp [delegate_vote, h1, hr1, hr2, h4] at hcontra
                rcases check_voter_can_vote_err s2 eid c w e4 h4 with h | h <;>
                  · rw [hcontra] at h
                    simp at h
              | ok u4 =>
                cases u4
                simp [delegate_vote, h1, hr1, hr2, h4] at hcontra

/-- Witness for C8 at the concrete closed election c8State. -/
theorem C8_witness :
    (delegate_vote c8State 5 1 6 1).1 = .ok () ∧
    (delegate_vote c8State 5 1 6 1).1 ≠ .error .ElectionClosed :=
  ⟨C8_no_open_gate_on_delegation.1 c8State 5 1 6 1
      (0, false, RegistrationState.RegistrationClosed, ElectionState.ElectionClosed)
      rfl rfl rfl rfl rfl,
   C8_no_open_gate_on_delegation.2 c8State 5 1 6 1⟩

/-- The storage at the point where vote performs its weight subtraction (the
tally update between the gate and the subtraction does not touch voters):
the state after the possibly mutating registration-needed gate. -/
def vote_gate_state (s : InkVotingDapp) (eid : Nat) (c : AccountId) : InkVotingDapp :=
  (check_if_registration_needed s eid c).2

/-- The storage at the point where delegate_vote runs its eligibility gate:
the state after both registration-needed gates. -/
def delegation_gate_state (s : InkVotingDapp) (eid : Nat) (c d : AccountId) :
    InkVotingDapp :=
  (check_if_registration_needed (check_if_registration_needed s eid c).2 eid d).2

/-- Claim C9: the subtraction in subtract_weight never underflows, because
both call sites pre-validate the amount. (i) when vote succeeds, the amount
is at most the caller weight recorded in the storage at the subtraction
point (vote_gate_state: the tally update in between does not touch voters);
(ii) when delegate_vote succeeds, the amount is at most the delegator weight
at the subtraction point, i.e. after the delegate-add insert (for
self-delegation this needs the add itself not to wrap, which checked u128
arithmetic guarantees); (iii) subtract_weight writes (0, consumed true)
exactly when the new weight is 0 and (new weight, consumed false)
otherwise. -/
theorem C9_subtraction_safe :
    (∀ (s : InkVotingDapp) (c : AccountId) (eid : Nat) (lbl : Label) (w : Nat),
       (vote s c eid lbl w).1 = .ok () →
       w ≤ ((mget (vote_gate_state s eid c).voters (eid, c)).getD (0, false)).1) ∧
    (∀ (s : InkVotingDapp) (c d : AccountId) (eid : Nat) (w : Nat),
       (delegate_vote s c eid d w).1 = .ok () →
       (d = c →
         ((mget (delegation_gate_state s eid c d).voters (eid, d)).getD (0, false)).1 + w
           < 2 ^ 128) →
       w ≤ ((mget (mput (delegation_gate_state s eid c d).voters (eid, d)
              (wadd
                ((mget (delegation_gate_state s eid c d).voters (eid, d)).getD (0, false)).1
                w, false)) (eid, c)).getD (0, false)).1) ∧
    (∀ (s : InkVotingDapp) (eid : Nat) (v : AccountId) (w : Nat),
       ((mget s.voters (eid, v)).getD (0, false)).1 < 2 ^ 128 →
       w ≤ ((mget s.voters (eid, v)).getD (0, false)).1 →
       mget (subtract_weight s eid v w).voters (eid, v) =
         some (if ((mget s.voters (eid, v)).getD (0, false)).1 - w = 0 then (0, true)
               else (((mget s.voters (eid, v)).getD (0, false)).1 - w, false))) := by
  refine ⟨?_, ?_, ?_⟩
  · intro s c eid lbl w h
    cases h1 : check_id_existence s eid with
    | error e1 => simp [vote, h1] at h
    | ok u =>
      cases u
      cases h2 : check_election_open s eid with
      | error e2 => simp [vote, h1, h2] at h
      | ok u2 =>
        cases u2
        cases hr1 : check_if_registration_needed s eid c with
        | mk r1 s1 =>
          cases r1 with
          | error e3 => simp [vote, h1, h2, hr1] at h
          | ok u3 =>
            cases u3
            cases h4 : check_voter_can_vote s1 eid c w with
            | error e4 => simp [vote, h1, h2, hr1, h4] at h
            | ok u4 =>
              have := (check_voter_can_vote_ok s1 eid c w h4).2
              unfold vote_gate_state
              rw [hr1]
              exact this
  · intro s c d eid w h hov
    cases h1 : check_id_existence s eid with
    | error e1 => simp [delegate_vote, h1] at h
    | ok u =>
      cases u
      cases hr1 : check_if_registration_needed s eid c with
      | mk r1 s1 =>
        cases r1 with
        | error e3 => simp [delegate_vote, h1, hr1] at h
        | ok u3 =>
          cases u3
          cases hr2 : check_if_registration_needed s1 eid d with
          | mk r2 s2 =>
            cases r2 with
            | error e5 => simp [delegate_vote, h1, hr1, hr2] at h
            | ok u5 =>
              cases u5
              cases h4 : check_voter_can_vote s2 eid c w with
              | error e4 => simp [delegate_vote, h1, hr1, hr2, h4] at h
              | ok u4 =>
                have hok := (check_voter_can_vote_ok s2 eid c w h4).2
                have hgs : delegation_gate_state s eid c d = s2 := by
                  unfold delegation_gate_state
                  rw [hr1, hr2]
                rw [hgs] at hov ⊢
                by_cases hdc : d = c
                · subst hdc
                  rw [mget_mput_self]
                  have hwadd : wadd ((mget s2.voters (eid, d)).getD (0, false)).1 w =
                      ((mget s2.voters (eid, d)).getD (0, false)).1 + w := by
                    unfold wadd
                    exact Nat.mod_eq_of_lt (hov rfl)
                  simp [hwadd]
                · have hkne : (eid, d) ≠ (eid, c) := by
                    intro hk
                    apply hdc
                    have := congrArg Prod.snd hk
                    simpa using this
                  rw [mget_mput_ne _ _ _ _ hkne]
                  exact hok
  · intro s eid v w hlt hw
    simp only [subtract_weight]
    rw [wsub_exact _ _ hlt hw]
    split
    · next h0 => simp [mget_mput_self, h0]
    · next h0 => simp [mget_mput_self, h0]

/-- A concrete state for the C9 witness: voter 5 holds weight 2 in the open
election 1. -/
def c9State : InkVotingDapp := { exOpen with voters := [((1, 5), (2, false))] }

/-- Witness for C9: a successful concrete vote satisfies the subtraction
bound, and subtract_weight at weight 2 minus 2 writes (0, consumed). -/
theorem C9_witness :
    (1 ≤ ((mget (vote_gate_state exOpen 1 1).voters (1, 1)).getD (0, false)).1) ∧
    mget (subtract_weight c9State 1 5 2).voters (1, 5) = some (0, true) :=
  ⟨C9_subtraction_safe.1 exOpen 1 1 [80] 1 rfl,
   (C9_subtraction_safe.2.2 c9State 1 5 2 (by decide) (by decide)).trans (by decide)⟩

theorem create_election_err_state (s : InkVotingDapp) (c : AccountId) (nm : Label)
    (rr : Bool) (pr : List Label) (e : Error)
    (h : (create_election s c nm rr pr).1 = .error e) :
    (create_election s c nm rr pr).2 = s := by
  cases h1 : check_double_election s nm with
  | error e1 => simp [create_election, h1]
  | ok u =>
    cases u
    cases h2 : check_sufficient_proposals pr with
    | error e2 => simp [create_election, h1, h2]
    | ok u2 =>
      cases u2
      simp [create_election, h1, h2] at h

theorem vote_err_lazy (s : InkVotingDapp) (c : AccountId) (eid : Nat) (lbl : Label)
    (w : Nat) (e : Error) (h : (vote s c eid lbl w).1 = .error e) :
    LazyOnly s (vote s c eid lbl w).2 := by
  cases h1 : check_id_existence s eid with
  | error e1 =>
    simp [vote, h1]
    exact lazy_refl s
  | ok u =>
    cases u
    cases h2 : check_election_open s eid with
    | error e2 =>
      simp [vote, h1, h2]
      exact lazy_refl s
    | ok u2 =>
      cases u2
      have hlazy := reg_lazy s eid c
      cases hr1 : check_if_registration_needed s eid c with
      | mk r1 s1 =>
        rw [hr1] at hlazy
        cases r1 with
        | error e3 =>
          simp [vote, h1, h2, hr1]
          exact hlazy
        | ok u3 =>
          cases u3
          cases h4 : check_voter_can_vote s1 eid c w with
          | error e4 =>
            simp [vote, h1, h2, hr1, h4]
            exact hlazy
          | ok u4 =>
            cases u4
            cases h5 : check_proposal_valid s1 eid lbl with
            | error e5 =>
              simp [vote, h1, h2, hr1, h4, h5]
              exact hlazy
            | ok u5 =>
              cases u5
              simp [vote, h1, h2, hr1, h4, h5] at h

theorem register_err_state (s : InkVotingDapp) (eid : Nat) (v : AccountId) (e : Error)
    (h : (register s eid v).1 = .error e) : (register s eid v).2 = s := by
  cases h1 : check_id_existence s eid with
  | error e1 => simp [register, h1]
  | ok u =>
    cases u
    cases h2 : check_registration_open s eid with
    | error e2 => simp [register, h1, h2]
    | ok u2 =>
      cases u2
      by_cases h3 : is_voter_registered s eid v
      · simp [register, h1, h2, h3]
      · simp [register, h1, h2, h3] at h

theorem delegate_vote_err_lazy (s : InkVotingDapp) (c : AccountId) (eid : Nat)
    (d : AccountId) (w : Nat) (e : Error)
    (h : (delegate_vote s c eid d w).1 = .error e) :
    LazyOnly s (delegate_vote s c eid d w).2 := by
  cases h1 : check_id_existence s eid with
  | error e1 =>
    simp [delegate_vote, h1]
    exact lazy_refl s
  | ok u =>
    cases u
    have hl1 := reg_lazy s eid c
    cases hr1 : check_if_registration_needed s eid c with
    | mk r1 s1 =>
      rw [hr1] at hl1
      cases r1 with
      | error e3 =>
        simp [delegate_vote, h1, hr1]
        exact hl1
      | ok u3 =>
        cases u3
        have hl2 := reg_lazy s1 eid d
        cases hr2 : check_if_registration_needed s1 eid d with
        | mk r2 s2 =>
          rw [hr2] at hl2
          have hl12 := lazy_trans hl1 hl2
          cases r2 with
          | error e5 =>
            simp [delegate_vote, h1, hr1, hr2]
            exact hl12
          | ok u5 =>
            cases u5
            cases h4 : check_voter_can_vote s2 eid c w with
            | error e4 =>
              simp [delegate_vote, h1, hr1, hr2, h4]
              exact hl12
            | ok u4 =>
              cases u4
              simp [delegate_vote, h1, hr1, hr2, h4] at h

theorem open_registration_err_state (s : InkVotingDapp) (c : AccountId) (eid : Nat)
    (e : Error) (h : (open_registration s c eid).1 = .error e) :
    (open_registration s c eid).2 = s := by
  cases h1 : check_id_existence s eid with
  | error e1 => simp [open_registration, h1]
  | ok u =>
    cases u
    cases h2 : only_owner s eid c with
    | error e2 => simp [open_registration, h1, h2]
    | ok u2 =>
      cases u2
      simp [open_registration, h1, h2] at h

theorem close_registration_err_state (s : InkVotingDapp) (c : AccountId) (eid : Nat)
    (e : Error) (h : (close_registration s c eid).1 = .error e) :
    (close_registration s c eid).2 = s := by
  cases h1 : check_id_existence s eid with
  | error e1 => simp [close_registration, h1]
  | ok u =>
    cases u
    cases h2 : only_owner s eid c with
    | error e2 => simp [close_registration, h1, h2]
    | ok u2 =>
      cases u2
      simp [close_registration, h1, h2] at h

theorem open_election_err_state (s : InkVotingDapp) (c : AccountId) (eid : Nat)
    (e : Error) (h : (open_election s c eid).1 = .error e) :
    (open_election s c eid).2 = s := by
  cases h1 : check_id_existence s eid with
  | error e1 => simp [open_election, h1]
  | ok u =>
    cases u
    cases h2 : only_owner s eid c with
    | error e2 => simp [open_election, h1, h2]
    | ok u2 =>
      cases u2
      simp [open_election, h1, h2] at h

theorem close_election_err_state (s : InkVotingDapp) (c : AccountId) (eid : Nat)
    (e : Error) (h : (close_election s c eid).1 = .error e) :
    (close_election s c eid).2 = s := by
  cases h1 : check_id_existence s eid with
  | error e1 => simp [close_election, h1]
  | ok u =>
    cases u
    cases h2 : only_owner s eid c with
    | error e2 => simp [close_election, h1, h2]
    | ok u2 =>
      cases u2
      simp [close_election, h1, h2] at h

theorem change_ownership_err_state (s : InkVotingDapp) (c : AccountId) (eid : Nat)
    (no : AccountId) (e : Error) (h : (change_ownership s c eid no).1 = .error e) :
    (change_ownership s c eid no).2 = s := by
  cases h1 : check_id_existence s eid with
  | error e1 => simp [change_ownership, h1]
  | ok u =>
    cases u
    cases h2 : only_owner s eid c with
    | error e2 => simp [change_ownership, h1, h2]
    | ok u2 =>
      cases u2
      simp [change_ownership, h1, h2] at h

/-- Claim C1 counterexample: in the concrete opened election exOpen the vote
call by the unregistered caller 7 with weight 2 returns an Error
(VoterHasNotSoMuchWeight), yet the storage after the call differs from the
storage before it: the registration-needed gate lazily created a voter
record before the weight gate failed. -/
theorem C1_counterexample :
    (vote exOpen 7 1 [80] 2).1 = .error .VoterHasNotSoMuchWeight ∧
    (vote exOpen 7 1 [80] 2).2 ≠ exOpen :=
  ⟨rfl, by decide⟩

/-- Claim C1 (amended): for every starting state, if vote or delegate_vote
returns an Error then every storage component except voters equals its value
before the call, and the voters mapping differs at most by lazy
registration: every key either keeps its previous binding or was absent and
is now bound to (1, not consumed) — the LazyOnly relation; every other
public mutating operation (create_election, register, register_me,
open_registration, close_registration, open_election, close_election,
change_ownership) returns on Error a storage exactly equal to the one before
the call. -/
theorem C1_failed_calls_lazy_only :
    (∀ (s : InkVotingDapp) (c : AccountId) (nm : Label) (rr : Bool) (pr : List Label)
       (e : Error), (create_election s c nm rr pr).1 = .error e →
       (create_election s c nm rr pr).2 = s) ∧
    (∀ (s : InkVotingDapp) (c : AccountId) (eid : Nat) (lbl : Label) (w : Nat)
       (e : Error), (vote s c eid lbl w).1 = .error e →
       LazyOnly s (vote s c eid lbl w).2) ∧
    (∀ (s : InkVotingDapp) (eid : Nat) (v : AccountId) (e : Error),
       (register s eid v).1 = .error e → (register s eid v).2 = s) ∧
    (∀ (s : InkVotingDapp) (c : AccountId) (eid : Nat) (e : Error),
       (register_me s c eid).1 = .error e → (register_me s c eid).2 = s) ∧
    (∀ (s : InkVotingDapp) (c : AccountId) (eid : Nat) (d : AccountId) (w : Nat)
       (e : Error), (delegate_vote s c eid d w).1 = .error e →
       LazyOnly s (delegate_vote s c eid d w).2) ∧
    (∀ (s : InkVotingDapp) (c : AccountId) (eid : Nat) (e : Error),
       (open_registration s c eid).1 = .error e →
       (open_registration s c eid).2 = s) ∧
    (∀ (s : InkVotingDapp) (c : AccountId) (eid : Nat) (e : Error),
       (close_registration s c eid).1 = .error e →
       (close_registration s c eid).2 = s) ∧
    (∀ (s : InkVotingDapp) (c : AccountId) (eid : Nat) (e : Error),
       (open_election s c eid).1 = .error e → (open_election s c eid).2 = s) ∧
    (∀ (s : InkVotingDapp) (c : AccountId) (eid : Nat) (e : Error),
       (close_election s c eid).1 = .error e → (close_election s c eid).2 = s) ∧
    (∀ (s : InkVotingDapp) (c : AccountId) (eid : Nat) (no : AccountId) (e : Error),
       (change_ownership s c eid no).1 = .error e →
       (change_ownership s c eid no).2 = s) :=
  ⟨create_election_err_state, vote_err_lazy, register_err_state,
   fun s c eid e h => register_err_state s eid c e h,
   delegate_vote_err_lazy, open_registration_err_state, close_registration_err_state,
   open_election_err_state, close_election_err_state, change_ownership_err_state⟩

/-- Witness for C1 (amended): the concrete failing vote of the
counterexample state satisfies the LazyOnly conclusion, and a concrete
non-owner open_election failure returns the storage exactly unchanged. -/
theorem C1_witness :
    LazyOnly exOpen (vote exOpen 7 1 [80] 2).2 ∧
    (open_election exBase 5 1).2 = exBase :=
  ⟨C1_failed_calls_lazy_only.2.1 exOpen 7 1 [80] 2 .VoterHasNotSoMuchWeight rfl,
   C1_failed_calls_lazy_only.2.2.2.2.2.2.2.1 exBase 5 1 .OnlyOwner rfl⟩

theorem subtract_weight_voters_mono (s : InkVotingDapp) (eid : Nat) (v : AccountId)
    (w : Nat) (k : Nat × AccountId) (hk : (mget s.voters k).isSome = true) :
    (mget (subtract_weight s eid v w).voters k).isSome = true := by
  simp only [subtract_weight]
  split
  · exact mget_isSome_mput _ _ _ _ hk
  · exact mget_isSome_mput _ _ _ _ hk

theorem delegate_voters_mono (s : InkVotingDapp) (eid : Nat) (dl dr : AccountId)
    (w : Nat) (k : Nat × AccountId) (hk : (mget s.voters k).isSome = true) :
    (mget (delegate s eid dl dr w).voters k).isSome = true := by
  simp only [delegate]
  exact subtract_weight_voters_mono _ _ _ _ _ (mget_isSome_mput _ _ _ _ hk)

theorem lazy_voters_mono {s t : InkVotingDapp} (h : LazyOnly s t) (k : Nat × AccountId)
    (hk : (mget s.voters k).isSome = true) : (mget t.voters k).isSome = true := by
  rcases h.2.2.2.2.2.2.2.2 k with h1 | ⟨h1, h2⟩
  · rw [h1]
    exact hk
  · rw [h2]
    rfl

theorem delegate_vote_voters_mono (s : InkVotingDapp) (c : AccountId) (eid : Nat)
    (d : AccountId) (w : Nat) (k : Nat × AccountId)
    (hk : (mget s.voters k).isSome = true) :
    (mget (delegate_vote s c eid d w).2.voters k).isSome = true := by
  cases h1 : check_id_existence s eid with
  | error e1 =>
    simp [delegate_vote, h1]
    exact hk
  | ok u =>
    cases u
    have hl1 := reg_lazy s eid c
    cases hr1 : check_if_registration_needed s eid c with
    | mk r1 s1 =>
      rw [hr1] at hl1
      have hk1 := lazy_voters_mono hl1 k hk
      cases r1 with
      | error e3 =>
        simp [delegate_vote, h1, hr1]
        exact hk1
      | ok u3 =>
        cases u3
        have hl2 := reg_lazy s1 eid d
        cases hr2 : check_if_registration_needed s1 eid d with
        | mk r2 s2 =>
          rw [hr2] at hl2
          have hk2 := lazy_voters_mono hl2 k hk1
          cases r2 with
          | error e5 =>
            simp [delegate_vote, h1, hr1, hr2]
            exact hk2
          | ok u5 =>
            cases u5
            cases h4 : check_voter_can_vote s2 eid c w with
            | error e4 =>
              simp [delegate_vote, h1, hr1, hr2, h4]
              exact hk2
            | ok u4 =>
              cases u4
              simp [delegate_vote, h1, hr1, hr2, h4]
              exact delegate_voters_mono _ _ _ _ _ _ hk2

theorem delegate_vote_sum (s : InkVotingDapp) (c d : AccountId) (eid : Nat) (w : Nat)
    (hc : (mget s.voters (eid, c)).isSome = true)
    (hd : (mget s.voters (eid, d)).isSome = true)
    (hsum : sum_weights eid s.voters < 2 ^ 128) :
    sum_weights eid (delegate_vote s c eid d w).2.voters = sum_weights eid s.voters := by
  obtain ⟨vc, hvc⟩ := Option.isSome_iff_exists.mp hc
  obtain ⟨vd, hvd⟩ := Option.isSome_iff_exists.mp hd
  have hregc := check_if_registration_needed_registered s eid c vc hvc
  have hregd := check_if_registration_needed_registered s eid d vd hvd
  cases h1 : check_id_existence s eid with
  | error e1 => simp [delegate_vote, h1]
  | ok u =>
    cases u
    cases h4 : check_voter_can_vote s eid c w with
    | error e4 => simp [delegate_vote, h1, hregc, hregd, h4]
    | ok u4 =>
      cases u4
      have hok := (check_voter_can_vote_ok s eid c w h4).2
      rw [hvc] at hok
      simp at hok
      have hres : (delegate_vote s c eid d w).2 = delegate s eid d c w := by
        simp [delegate_vote, h1, hregc, hregd, h4]
      rw [hres]
      have hwc_le : vc.1 ≤ sum_weights eid s.voters :=
        weight_le_sum eid s.voters (eid, c) vc hvc rfl
      have hwd_le : vd.1 ≤ sum_weights eid s.voters :=
        weight_le_sum eid s.voters (eid, d) vd hvd rfl
      have hvclt : vc.1 < 2 ^ 128 := lt_of_le_of_lt hwc_le hsum
      by_cases hdc : d = c
      · subst hdc
        obtain rfl : vc = vd := by
          rw [hvc] at hvd
          exact Option.some.inj hvd
        have hcancel := wsub_wadd_cancel vc.1 w hvclt hok
        have hs1get : mget (mput s.voters (eid, d) (wadd vc.1 w, false)) (eid, d) =
            some (wadd vc.1 w, false) := mget_mput_self _ _ _
        have e1 := sum_weights_mput_some eid s.voters (eid, d) vc
          (wadd vc.1 w, false) hvc
        simp at e1
        by_cases h0 : vc.1 = 0
        · have e2 := sum_weights_mput_some eid
            (mput s.voters (eid, d) (wadd vc.1 w, false)) (eid, d)
            (wadd vc.1 w, false) (0, true) hs1get
          simp at e2
          simp [delegate, subtract_weight, hvc, hs1get, hcancel]
          rw [if_pos h0]
          simp
          omega
        · have e2 := sum_weights_mput_some eid
            (mput s.voters (eid, d) (wadd vc.1 w, false)) (eid, d)
            (wadd vc.1 w, false) (vc.1, false) hs1get
          simp at e2
          simp [delegate, subtract_weight, hvc, hs1get, hcancel, h0]
          omega
      · have hkdc : (eid, d) ≠ (eid, c) := by
          intro hk
          apply hdc
          have := congrArg Prod.snd hk
          simpa using this
        have h2le := weights_two_le_sum eid s.voters (eid, d) (eid, c) vd vc hkdc
          hvd hvc rfl rfl
        have hwadd : wadd vd.1 w = vd.1 + w := by
          unfold wadd
          exact Nat.mod_eq_of_lt (by omega)
        have hs1cv : mget (mput s.voters (eid, d) (vd.1 + w, false)) (eid, c) =
            some vc := by
          rw [mget_mput_ne _ _ _ _ hkdc, hvc]
        have hwsub : wsub vc.1 w = vc.1 - w := wsub_exact _ _ hvclt hok
        have e1 := sum_weights_mput_some eid s.voters (eid, d) vd (vd.1 + w, false) hvd
        simp at e1
        by_cases h0 : vc.1 - w = 0
        · have e2 := sum_weights_mput_some eid
            (mput s.voters (eid, d) (vd.1 + w, false)) (eid, c) vc (0, true) hs1cv
          simp at e2
          simp [delegate, subtract_weight, hvd, hwadd, hs1cv, hwsub, h0]
          omega
        · have e2 := sum_weights_mput_some eid
            (mput s.voters (eid, d) (vd.1 + w, false)) (eid, c) vc
            (vc.1 - w, false) hs1cv
          simp at e2
          simp [delegate, subtract_weight, hvd, hwadd, hs1cv, hwsub, h0]
          omega

theorem run_delegations_sum (eid : Nat) (calls : List (AccountId × AccountId × Nat)) :
    ∀ (s : InkVotingDapp),
      (∀ t ∈ calls, (mget s.voters (eid, t.1)).isSome = true ∧
                    (mget s.voters (eid, t.2.1)).isSome = true) →
      sum_weights eid s.voters < 2 ^ 128 →
      sum_weights eid (run_delegations eid s calls).voters = sum_weights eid s.voters := by
  induction calls with
  | nil =>
    intro s _ _
    rfl
  | cons t rest ih =>
    intro s hpart hsum
    obtain ⟨c, d, w⟩ := t
    have hc := (hpart (c, d, w) (by simp)).1
    have hd := (hpart (c, d, w) (by simp)).2
    have hstep := delegate_vote_sum s c d eid w hc hd hsum
    have hrest : ∀ t ∈ rest,
        (mget (delegate_vote s c eid d w).2.voters (eid, t.1)).isSome = true ∧
        (mget (delegate_vote s c eid d w).2.voters (eid, t.2.1)).isSome = true := by
      intro t2 ht2
      exact ⟨delegate_vote_voters_mono s c eid d w _ (hpart t2 (by simp [ht2])).1,
             delegate_vote_voters_mono s c eid d w _ (hpart t2 (by simp [ht2])).2⟩
    have hrec := ih (delegate_vote s c eid d w).2 hrest (by rw [hstep]; exact hsum)
    simp only [run_delegations]
    rw [hrec, hstep]

/-- Claim C3 counterexample: on exBase, where election 1 has no voter
records at all, the one-call delegation sequence (caller 1 delegates 1 unit
to 2) changes the total recorded weight of election 1 (from 0 to 2): the
registration-needed gates lazily create two weight-1 records before the
transfer. -/
theorem C3_counterexample :
    sum_weights 1 (run_delegations 1 exBase [(1, 2, 1)]).voters ≠
      sum_weights 1 exBase.voters := by decide

/-- A concrete opened election with two pre-existing voter records, total
weight 4. -/
def c3State : InkVotingDapp :=
  { exBase with voters := [((1, 5), (3, false)), ((1, 6), (1, false))] }

/-- Claim C3 (amended): for every election id and every sequence of
delegate_vote calls (with no vote calls interleaved) in which every caller
and every delegate already holds a voter record for that election, and the
total recorded weight of the election fits in a u128, the sum of weight over
all voter records for that election after the sequence equals the sum before
it; without the pre-existing-record condition each call additionally raises
the sum by 1 for every record it lazily creates. -/
theorem C3_weight_conservation (eid : Nat) (calls : List (AccountId × AccountId × Nat))
    (s : InkVotingDapp)
    (hpart : ∀ t ∈ calls, (mget s.voters (eid, t.1)).isSome = true ∧
                          (mget s.voters (eid, t.2.1)).isSome = true)
    (hsum : sum_weights eid s.voters < 2 ^ 128) :
    sum_weights eid (run_delegations eid s calls).voters = sum_weights eid s.voters :=
  run_delegations_sum eid calls s hpart hsum

/-- Witness for C3 (amended) on the concrete two-voter state c3State. -/
theorem C3_witness :
    sum_weights 1 (run_delegations 1 c3State [(5, 6, 2)]).voters =
      sum_weights 1 c3State.voters :=
  C3_weight_conservation 1 [(5, 6, 2)] c3State (by decide) (by decide)

theorem insert_proposals_from_spare (eid : Nat) (ps : List Label) :
    ∀ (s : InkVotingDapp) (i : Nat),
      (insert_proposals_from s eid ps i).elections = s.elections ∧
      (insert_proposals_from s eid ps i).elections_ids = s.elections_ids ∧
      (insert_proposals_from s eid ps i).election_nonce = s.election_nonce ∧
      (insert_proposals_from s eid ps i).election_count = s.election_count := by
  induction ps with
  | nil =>
    intro s i
    exact ⟨rfl, rfl, rfl, rfl⟩
  | cons p rest ih =>
    intro s i
    exact ih (insert_proposal s eid p i) (i + 1)

theorem insert_election_ids (s : InkVotingDapp) (nm : Label) (eid : Nat)
    (ow : AccountId) (rr : Bool) (pr : List Label) :
    (insert_election s nm eid ow rr pr).elections_ids = mput s.elections_ids nm eid := by
  simp only [insert_election]
  exact (insert_proposals_from_spare eid pr _ 0).2.1

theorem insert_election_nonce (s : InkVotingDapp) (nm : Label) (eid : Nat)
    (ow : AccountId) (rr : Bool) (pr : List Label) :
    (insert_election s nm eid ow rr pr).election_nonce = s.election_nonce := by
  simp only [insert_election]
  exact (insert_proposals_from_spare eid pr _ 0).2.2.1

theorem create_election_ok (s : InkVotingDapp) (c : AccountId) (nm : Label) (rr : Bool)
    (pr : List Label) (hnm : mget s.elections_ids nm = none) (hpr : pr ≠ []) :
    (create_election s c nm rr pr).1 = .ok () ∧
    (create_election s c nm rr pr).2.election_nonce = add32 s.election_nonce 1 ∧
    mget (create_election s c nm rr pr).2.elections_ids nm = some s.election_nonce := by
  have hdbl : check_double_election s nm = .ok () := by
    simp [check_double_election, election_name_exists, hnm]
  have hsuf : check_sufficient_proposals pr = .ok () := by
    simp [check_sufficient_proposals, List.length_eq_zero, hpr]
  refine ⟨?_, ?_, ?_⟩
  · simp [create_election, hdbl, hsuf]
  · simp [create_election, hdbl, hsuf, insert_election_nonce]
  · simp [create_election, hdbl, hsuf, insert_election_ids, mget_mput_self]

theorem create_election_preserves_ids (s : InkVotingDapp) (c : AccountId) (nm : Label)
    (rr : Bool) (pr : List Label) (nm2 : Label) (h : nm ≠ nm2) :
    mget (create_election s c nm rr pr).2.elections_ids nm2 =
      mget s.elections_ids nm2 := by
  cases h1 : check_double_election s nm with
  | error e1 => simp [create_election, h1]
  | ok u =>
    cases u
    cases h2 : check_sufficient_proposals pr with
    | error e2 => simp [create_election, h1, h2]
    | ok u2 =>
      cases u2
      simp [create_election, h1, h2, insert_election_ids, mget_mput_ne _ _ _ _ h]

theorem run_creates_preserves_ids (calls : List (AccountId × Label × Bool × List Label)) :
    ∀ (s : InkVotingDapp) (nm : Label),
      (∀ t ∈ calls, t.2.1 ≠ nm) →
      mget (run_creates s calls).elections_ids nm = mget s.elections_ids nm := by
  induction calls with
  | nil =>
    intro s nm _
    rfl
  | cons t rest ih =>
    intro s nm h
    obtain ⟨c, nm1, rr, pr⟩ := t
    simp only [run_creates]
    rw [ih _ nm (fun t2 ht2 => h t2 (by simp [ht2]))]
    exact create_election_preserves_ids s c nm1 rr pr nm (h (c, nm1, rr, pr) (by simp))

theorem run_creates_ids_general (calls : List (AccountId × Label × Bool × List Label)) :
    ∀ (s : InkVotingDapp),
      s.election_nonce + calls.length ≤ 2 ^ 32 →
      (∀ t ∈ calls, t.2.2.2 ≠ ([] : List Label)) →
      (∀ t ∈ calls, mget s.elections_ids t.2.1 = none) →
      calls.Pairwise (fun a b => a.2.1 ≠ b.2.1) →
      ∀ (i : Nat) (hi : i < calls.length),
        mget (run_creates s calls).elections_ids (calls.get ⟨i, hi⟩).2.1 =
          some (s.election_nonce + i) := by
  induction calls with
  | nil =>
    intro s _ _ _ _ i hi
    simp at hi
  | cons t rest ih =>
    intro s hbound hprops habsent hpw i hi
    obtain ⟨c, nm, rr, pr⟩ := t
    have hnm : mget s.elections_ids nm = none := habsent (c, nm, rr, pr) (by simp)
    have hpr : pr ≠ [] := hprops (c, nm, rr, pr) (by simp)
    have hok := create_election_ok s c nm rr pr hnm hpr
    have hpwh := List.pairwise_cons.mp hpw
    cases i with
    | zero =>
      simp only [run_creates, List.get]
      rw [run_creates_preserves_ids rest _ nm (fun t2 ht2 => (hpwh.1 t2 ht2).symm)]
      rw [hok.2.2]
      simp
    | succ j =>
      have hj : j < rest.length := by simpa using hi
      have hbound2 : s.election_nonce + 1 < 2 ^ 32 := by
        simp at hbound
        omega
      have hnonce2 : (create_election s c nm rr pr).2.election_nonce =
          s.election_nonce + 1 := by
        rw [hok.2.1]
        unfold add32
        exact Nat.mod_eq_of_lt hbound2
      have habsent2 : ∀ t ∈ rest,
          mget (create_election s c nm rr pr).2.elections_ids t.2.1 = none := by
        intro t2 ht2
        rw [create_election_preserves_ids s c nm rr pr t2.2.1 (hpwh.1 t2 ht2)]
        exact habsent t2 (by simp [ht2])
      have hrec := ih (create_election s c nm rr pr).2
        (by
          rw [hnonce2]
          simp at hbound ⊢
          omega)
        (fun t2 ht2 => hprops t2 (by simp [ht2]))
        habsent2 hpwh.2 j hj
      rw [hnonce2] at hrec
      have harith : s.election_nonce + 1 + j = s.election_nonce + (j + 1) := by omega
      rw [harith] at hrec
      simp only [run_creates, List.get]
      exact hrec

/-- Claim C7: starting from the freshly constructed storage, running
create_election n times with pairwise-distinct names and non-empty proposal
lists (n below the u32 bound) binds the i-th name to election id i+1, i.e.
ids 1..n in call order; and in any state a call repeating an already-used
name is rejected with ElectionNotValid and leaves the whole storage,
election_nonce and election_count included, unchanged. -/
theorem C7_id_allocation :
    (∀ (calls : List (AccountId × Label × Bool × List Label)),
       calls.length < 2 ^ 32 →
       (∀ t ∈ calls, t.2.2.2 ≠ ([] : List Label)) →
       calls.Pairwise (fun a b => a.2.1 ≠ b.2.1) →
       ∀ (i : Nat) (hi : i < calls.length),
         mget (run_creates initial_state calls).elections_ids
           (calls.get ⟨i, hi⟩).2.1 = some (1 + i)) ∧
    (∀ (s : InkVotingDapp) (c : AccountId) (nm : Label) (rr : Bool) (pr : List Label),
       (mget s.elections_ids nm).isSome = true →
       create_election s c nm rr pr = (.error .ElectionNotValid, s)) := by
  constructor
  · intro calls hlen hprops hpw i hi
    exact run_creates_ids_general calls initial_state
      (by
        simp [initial_state]
        omega)
      hprops (fun t _ => rfl) hpw i hi
  · intro s c nm rr pr h
    simp [create_election, check_double_election, election_name_exists, h]

/-- Witness for C7: two distinct-name creations from the fresh storage get
ids 1 and 2 (the second name maps to id 2), and repeating the used name 101
on the concrete state exBase is rejected leaving the state unchanged. -/
theorem C7_witness :
    mget (run_creates initial_state
        [(9, [101], false, [[80]]), (9, [102], true, [[80]])]).elections_ids [102] =
      some 2 ∧
    create_election exBase 7 [101] true [[99]] = (.error .ElectionNotValid, exBase) := by
  constructor
  · have h := C7_id_allocation.1 [(9, [101], false, [[80]]), (9, [102], true, [[80]])]
      (by decide) (by decide) (by decide) 1 (by decide)
    simpa using h
  · exact C7_id_allocation.2 exBase 7 [101] true [[99]] rfl
